import Mathlib

/-!
Verification of the adaptive benchmark engine in `benchmark_generator.py`
(class `AstraZenecaBenchmark` and its pydantic data schemas).

Shallow embedding conventions:
* Python floats carrying scores / EMA values are modelled as `ℚ`;
* Python `int` as `ℤ` (iteration counters as `ℕ`, they are only incremented);
* the remote OpenAI client is modelled as an adapter function supplied by the
  environment; a failing call (network error, rate limit, non-JSON payload)
  is an `Option`/`Except` failure.  JSON lexing of a syntactically valid
  payload is elided: the adapter hands over the parsed fields, and pydantic
  field validation (`clean_int`, the `ge`/`le` range checks) is embedded
  explicitly below;
* a Python exception escaping a function is `Except.error`.
-/

namespace BenchmarkGen

/-- A JSON field value that may arrive as an int or as a string
(pydantic hands `clean_int` the raw field, mode="before"). -/
inductive PyVal where
  | int (n : ℤ)
  | str (s : String)

/-- Schema `FailureMode` (benchmark_generator.py lines 49-51). -/
structure FailureMode where
  category : String
  description : String
deriving DecidableEq

/-- Schema `Evaluation` (lines 52-55); the `score` field carries the
pydantic bounds `ge=0.0, le=1.0`, checked by `Evaluation.validate`. -/
structure Evaluation where
  score : ℚ
  reasoning : String
  failure_modes : List FailureMode
deriving DecidableEq

/-- Schema `BenchmarkItem` (lines 37-47); `difficulty_intent` carries the
pydantic bounds `ge=1, le=10`, checked by `BenchmarkItem.validate`. -/
structure BenchmarkItem where
  topic : String
  question : String
  difficulty_intent : ℤ
deriving DecidableEq

/-- Python `str.strip` on the left only: drop leading whitespace. -/
def lstripWS : List Char → List Char
  | [] => []
  | c :: cs => if c.isWhitespace then lstripWS cs else c :: cs

/-- Python `str.strip`: drop leading and trailing whitespace. -/
def stripWS (cs : List Char) : List Char :=
  ((lstripWS cs).reverse |> lstripWS).reverse

/-- `v.split("/")[0]`: the prefix of the string before the first `/`
(the whole string when no `/` occurs). -/
def beforeSlash (cs : List Char) : List Char :=
  cs.takeWhile fun c => c ≠ '/'

/-- Parse a nonempty all-digit string as a natural number
(the digit part of Python `int(...)`). -/
def parseDigits (cs : List Char) : Option ℤ :=
  if cs ≠ [] ∧ cs.all (fun c => c.isDigit) then
    some (cs.foldl (fun n c => 10 * n + ((c.toNat - 48 : ℕ) : ℤ)) 0)
  else none

/-- Python `int(s)` on a string: strip whitespace, optional sign, digits;
raises (here: `none`) on anything else, e.g. `int("3 out of 10")`. -/
def pyInt (cs : List Char) : Option ℤ :=
  match stripWS cs with
  | '-' :: rest => (parseDigits rest).map fun n => -n
  | '+' :: rest => parseDigits rest
  | rest => parseDigits rest

/-- `BenchmarkItem.clean_int` (lines 42-47): a string field value is split
on `/`, the first piece stripped and fed to `int(...)`; a non-string value
passes through.  `none` models the `ValueError` escaping the validator. -/
def clean_int : PyVal → Option ℤ
  | .int n => some n
  | .str s => pyInt (stripWS (beforeSlash s.data))

/-- Pydantic validation of a `BenchmarkItem`: run the `clean_int`
pre-validator on `difficulty_intent`, then check the `ge=1, le=10` bounds.
`none` models a `ValidationError`. -/
def BenchmarkItem.validate (topic question : String) (v : PyVal) :
    Option BenchmarkItem :=
  (clean_int v).bind fun d =>
    if 1 ≤ d ∧ d ≤ 10 then some ⟨topic, question, d⟩ else none

/-- Pydantic validation of an `Evaluation`: check `ge=0.0, le=1.0` on the
score.  `none` models a `ValidationError` (out-of-range is rejected, not
clamped). -/
def Evaluation.validate (score : ℚ) (reasoning : String)
    (failure_modes : List FailureMode) : Option Evaluation :=
  if 0 ≤ score ∧ score ≤ 1 then some ⟨score, reasoning, failure_modes⟩
  else none

/-! ## Generator prompts (lines 86-114)

The two prompt texts of `generate_question`, reproduced from the source.
The f-string of the `else` branch is split at its interpolation holes
(`{domain}`, `{difficulty}`, `{recent_questions}`) and around the
"Avoid repeating" instruction, so the pieces can be named in theorems;
their concatenation is byte-for-byte the rendered f-string. -/

/-- The adversarial prompt used when `difficulty > 8` (line 90). -/
def criticalPrompt : String :=
  "\nCRITICAL: The question MUST contain a subtle false premise or a counter-intuitive edge case. It should be designed to TRICK the model."

def promptA : String :=
  "\n            You are a Senior Principal Scientist at AstraZeneca.\n\n            Generate a *novel* reasoning-heavy question in "

def promptB : String := ".\n\n            "

/-- The `Difficulty level: {difficulty}/10` line of the standard prompt. -/
def diffLine (difficulty : ℤ) : String :=
  "Difficulty level: " ++ toString difficulty ++ "/10"

def promptC1 : String :=
  "\n\n            Focus on ONE:\n            - ADC linker or payload trade-offs\n            - clinical inclusion/exclusion edge cases\n            - biomarker stratification failures\n            - regulatory or translational risks\n\n            "

/-- The novelty instruction of the standard prompt. -/
def avoidLine : String := "Avoid repeating prior reasoning patterns."

def promptC2 : String := "\n            Previous questions:\n            "

def promptD : String :=
  "\n\n            Return JSON only:\n            \x7b\n            \"topic\": \"...\",\n            \"question\": \"...\",\n            \"difficulty_intent\": "

def promptE : String := "\n            \x7d\n            "

/-- The standard (non-adversarial) generation prompt, the rendered f-string
of lines 91-114. -/
def standardPrompt (domain : String) (difficulty : ℤ)
    (recent_questions : String) : String :=
  promptA ++ domain ++ promptB ++ diffLine difficulty ++ promptC1 ++
    avoidLine ++ promptC2 ++ recent_questions ++ promptD ++
    toString difficulty ++ promptE

/-- Python `l[-10:]`: the suffix of the last (at most) `n` elements. -/
def lastN (n : ℕ) (l : List String) : List String :=
  l.drop (l.length - n)

/-- Line 87: `"\n".join(self.question_history[-10:])`. -/
def recentQuestions (history : List String) : String :=
  String.intercalate "\n" (lastN 10 history)

/-- The prompt `generate_question` builds for a given difficulty and
history (lines 87-114): the adversarial text when `difficulty > 8`, the
standard prompt otherwise. -/
def genPrompt (domain : String) (difficulty : ℤ)
    (history : List String) : String :=
  if difficulty > 8 then criticalPrompt
  else standardPrompt domain difficulty (recentQuestions history)

/-! ## The engine -/

/-- Parsed JSON fields of a generator response (the payload
`model_validate_json` receives on line 124, lexing elided). -/
structure RawItem where
  topic : String
  question : String
  difficulty : PyVal

/-- Parsed JSON fields of a judge response (line 199). -/
structure RawEval where
  score : ℚ
  reasoning : String
  failure_modes : List FailureMode

/-- The remote OpenAI client as seen through the three call sites:
`gen` gets the generation prompt; `sol` gets the domain and the question;
`jud` gets the question and the answer (its fixed rubric system prompt
carries no per-call data).  `none` / `Except.error` is a raised exception;
the judge failure carries `str(e)`, which reaches the sentinel reasoning. -/
structure Adapters where
  gen : String → Option RawItem
  sol : String → String → Option String
  jud : String → String → Except String RawEval

/-- The sentinel question text of the generation fallback (line 135). -/
def genErrorQuestion : String :=
  "[SYSTEM ERROR: Could not generate question. Skipping...]"

/-- The sentinel answer of the solver fallback (line 154). -/
def solverError : String := "[SYSTEM ERROR: Solver failed to respond]"

/-- The fallback `BenchmarkItem(...)` of lines 133-137: the sentinel item
is itself built through pydantic validation, so an out-of-range requested
difficulty would raise (`none`) even on the fallback path. -/
def sentinelItemOpt (difficulty : ℤ) : Option BenchmarkItem :=
  BenchmarkItem.validate "Generation Error" genErrorQuestion
    (.int difficulty)

/-- `generate_question` (lines 86-137): build the prompt, call the model,
validate; on success append the question to the history (line 127); on
any exception (adapter failure or validation failure) fall back to the
sentinel item and leave the history unchanged.  The result pairs the item
with the updated `question_history`; `Except.error` is an exception
escaping the method (only possible if the fallback item itself fails
validation). -/
def generate_question (g : String → Option RawItem)
    (history : List String) (domain : String) (difficulty : ℤ) :
    Except Unit (BenchmarkItem × List String) :=
  let prompt := genPrompt domain difficulty history
  let fallback : Except Unit (BenchmarkItem × List String) :=
    match sentinelItemOpt difficulty with
    | some item => .ok (item, history)
    | none => .error ()
  match g prompt with
  | some raw =>
    match BenchmarkItem.validate raw.topic raw.question raw.difficulty with
    | some item => .ok (item, history ++ [item.question])
    | none => fallback
  | none => fallback

/-- `solve` (lines 142-154): return the model answer, or the sentinel
string when the call raises. -/
def solve (s : String → String → Option String)
    (domain question : String) : String :=
  match s domain question with
  | some ans => ans
  | none => solverError

/-- The sentinel `Evaluation` of lines 206-210, with `e = str(e)`. -/
def sentinelEval (e : String) : Evaluation :=
  ⟨0, "System Error during evaluation: " ++ e,
    [⟨"System", "API/JSON Error"⟩]⟩

/-- Stand-in for the `str(e)` text of a pydantic `ValidationError` raised
while validating the judge response (the exact message is produced by the
pydantic library and is not meaningful to the engine). -/
def pydanticEvalError : String := "validation error for Evaluation"

/-- `judge` (lines 159-210): call the judge model and validate the
response; on any exception return the sentinel `Evaluation` naming the
failure.  (`domain` is accepted but unused, as in the source.) -/
def judge (j : String → String → Except String RawEval)
    (domain question answer : String) : Evaluation :=
  match j question answer with
  | .ok raw =>
    match Evaluation.validate raw.score raw.reasoning raw.failure_modes with
    | some ev => ev
    | none => sentinelEval pydanticEvalError
  | .error e => sentinelEval e

/-- Mutable state of `AstraZenecaBenchmark` (lines 77-81). -/
structure Benchmark where
  alpha : ℚ
  ema_score : Option ℚ
  iteration : ℕ
  question_history : List String
deriving DecidableEq

/-- `__init__` (lines 62-81): `ema_score = None`, `iteration = 0`, empty
history; the default smoothing constant is `alpha = 0.3 = 3/10`. -/
def Benchmark.mkInit (alpha : ℚ) : Benchmark := ⟨alpha, none, 0, []⟩

/-- The EMA update of lines 230-237: bootstrap to the raw score when no
prior average exists, otherwise `alpha*Y + (1-alpha)*S`. -/
def emaUpdate (alpha : ℚ) (ema_score : Option ℚ) (y : ℚ) : ℚ :=
  match ema_score with
  | none => y
  | some s => alpha * y + (1 - alpha) * s

/-- The adaptive difficulty policy of lines 218-224 (evaluated after the
iteration counter has been incremented): neutral 5 with no EMA; for
EMA > 0.75 ramp up `min(10, 6 + iteration // 2)`; otherwise ramp down
`max(3, 5 - iteration // 2)`. -/
def selectDifficulty (ema_score : Option ℚ) (iteration : ℕ) : ℤ :=
  match ema_score with
  | none => 5
  | some s =>
    if s > 3 / 4 then min 10 (6 + ((iteration / 2 : ℕ) : ℤ))
    else max 3 (5 - ((iteration / 2 : ℕ) : ℤ))

/-- The dict returned by `run_iteration` (lines 239-249). -/
structure IterationRecord where
  iteration : ℕ
  difficulty : ℤ
  topic : String
  question : String
  answer : String
  score : ℚ
  ema : ℚ
  failure_modes : List FailureMode
  reasoning : String
deriving DecidableEq

/-- `run_iteration` (lines 215-249): increment the counter, select the
difficulty, generate, solve, judge, fold the score into the EMA, and
return the record together with the updated state.  `Except.error` is an
uncaught exception escaping the method. -/
def run_iteration (a : Adapters) (domain : String) (b : Benchmark) :
    Except Unit (IterationRecord × Benchmark) :=
  let iteration := b.iteration + 1
  let difficulty := selectDifficulty b.ema_score iteration
  match generate_question a.gen b.question_history domain difficulty with
  | .error e => .error e
  | .ok (item, history) =>
    let answer := solve a.sol domain item.question
    let evaluation := judge a.jud domain item.question answer
    let ema := emaUpdate b.alpha b.ema_score evaluation.score
    .ok
      (⟨iteration, difficulty, item.topic, item.question, answer,
        evaluation.score, ema, evaluation.failure_modes,
        evaluation.reasoning⟩,
       ⟨b.alpha, some ema, iteration, history⟩)

/-! ## Auxiliary definitions for the statements -/

/-- `t` occurs as a contiguous substring of `s`. -/
def ContainsStr (s t : String) : Prop := t.data <:+: s.data

instance (s t : String) : Decidable (ContainsStr s t) :=
  List.decidableInfix t.data s.data

/-- `n` successive EMA updates (lines 230-237) with the constant raw
score `y`, starting from the defined prior average `s`. -/
def emaIter (alpha y : ℚ) : ℕ → ℚ → ℚ
  | 0, s => s
  | n + 1, s => emaIter alpha y n (emaUpdate alpha (some s) y)

/-- The EMA state is unset or a score in `[0, 1]`. -/
def emaInvariant (o : Option ℚ) : Prop :=
  ∀ s, o = some s → 0 ≤ s ∧ s ≤ 1

/-- An environment in which every upstream call raises. -/
def failAdapters : Adapters :=
  ⟨fun _ => none, fun _ _ => none, fun _ _ => .error "boom"⟩

/-- A generator adapter that always returns the fixed valid item. -/
def gOK : String → Option RawItem := fun _ => some ⟨"T", "Q", .int 5⟩

/-- The record produced by one `failAdapters` iteration from the fresh
state `Benchmark.mkInit (3/10)`. -/
def recFail : IterationRecord :=
  ⟨1, 5, "Generation Error", genErrorQuestion, solverError, 0, 0,
    [⟨"System", "API/JSON Error"⟩], "System Error during evaluation: boom"⟩

/-- The state after that iteration. -/
def benchFail : Benchmark := ⟨3 / 10, some 0, 1, []⟩

/-- A state with a defined prior average `1/2`. -/
def bench2 : Benchmark := ⟨3 / 10, some (1 / 2), 0, []⟩

/-- The record produced by one `failAdapters` iteration from `bench2`:
the sentinel score 0 moves the EMA to `0.3*0 + 0.7*(1/2) = 7/20`. -/
def recFail2 : IterationRecord :=
  ⟨1, 5, "Generation Error", genErrorQuestion, solverError, 0, 7 / 20,
    [⟨"System", "API/JSON Error"⟩], "System Error during evaluation: boom"⟩

/-- The state after that iteration. -/
def benchFail2 : Benchmark := ⟨3 / 10, some (7 / 20), 1, []⟩

/-! ## Helper lemmas -/

theorem containsStr_data (s t : String) (a b : List Char)
    (h : s.data = a ++ t.data ++ b) : ContainsStr s t := ⟨a, b, h.symm⟩

theorem selectDifficulty_bounds (o : Option ℚ) (i : ℕ) :
    1 ≤ selectDifficulty o i ∧ selectDifficulty o i ≤ 10 := by
  cases o with
  | none => refine ⟨?_, ?_⟩ <;> simp [selectDifficulty]
  | some s => simp only [selectDifficulty]; split <;> omega

theorem sentinelItemOpt_some (d : ℤ) (h1 : 1 ≤ d) (h2 : d ≤ 10) :
    sentinelItemOpt d = some ⟨"Generation Error", genErrorQuestion, d⟩ := by
  simp [sentinelItemOpt, BenchmarkItem.validate, clean_int, h1, h2]

theorem sentinelItemOpt_question (d : ℤ) (item : BenchmarkItem)
    (h : sentinelItemOpt d = some item) :
    item.topic = "Generation Error" ∧ item.question = genErrorQuestion := by
  simp only [sentinelItemOpt, BenchmarkItem.validate, clean_int,
    Option.bind] at h
  split at h
  · injection h with h
    subst h
    exact ⟨rfl, rfl⟩
  · exact Option.noConfusion h

theorem generate_question_fail (history : List String) (domain : String)
    (d : ℤ) (h1 : 1 ≤ d) (h2 : d ≤ 10) :
    generate_question (fun _ => none) history domain d =
      .ok (⟨"Generation Error", genErrorQuestion, d⟩, history) := by
  simp [generate_question, sentinelItemOpt_some d h1 h2]

theorem Evaluation.validate_some (score : ℚ) (r : String)
    (fm : List FailureMode) (ev : Evaluation)
    (h : Evaluation.validate score r fm = some ev) :
    0 ≤ ev.score ∧ ev.score ≤ 1 := by
  unfold Evaluation.validate at h
  split at h
  · rename_i hc
    injection h with h
    subst h
    exact hc
  · exact Option.noConfusion h

theorem judge_score_mem (j : String → String → Except String RawEval)
    (domain question answer : String) :
    0 ≤ (judge j domain question answer).score ∧
      (judge j domain question answer).score ≤ 1 := by
  unfold judge
  split
  · split
    · rename_i ev hv
      exact Evaluation.validate_some _ _ _ _ hv
    · constructor <;> norm_num [sentinelEval]
  · constructor <;> norm_num [sentinelEval]

theorem emaUpdate_mem (alpha : ℚ) (o : Option ℚ) (y : ℚ)
    (ha0 : 0 ≤ alpha) (ha1 : alpha ≤ 1)
    (ho : ∀ s, o = some s → 0 ≤ s ∧ s ≤ 1)
    (hy0 : 0 ≤ y) (hy1 : y ≤ 1) :
    0 ≤ emaUpdate alpha o y ∧ emaUpdate alpha o y ≤ 1 := by
  cases o with
  | none => exact ⟨hy0, hy1⟩
  | some s =>
    obtain ⟨hs0, hs1⟩ := ho s rfl
    simp only [emaUpdate]
    constructor <;> nlinarith

theorem emaIter_sub (alpha y : ℚ) (n : ℕ) (s : ℚ) :
    emaIter alpha y n s - y = (1 - alpha) ^ n * (s - y) := by
  induction n generalizing s with
  | zero => simp [emaIter]
  | succ n ih =>
    rw [emaIter, ih]
    simp only [emaUpdate]
    ring

theorem lastN_idem (n : ℕ) (l : List String) :
    lastN n (lastN n l) = lastN n l := by
  unfold lastN
  rw [List.length_drop]
  have h : l.length - (l.length - n) - n = 0 := by omega
  rw [h, List.drop_zero]

theorem genPrompt_lastN (domain : String) (d : ℤ) (history : List String) :
    genPrompt domain d history = genPrompt domain d (lastN 10 history) := by
  unfold genPrompt
  split
  · rfl
  · simp [recentQuestions, lastN_idem]

/-! ## Claims -/

/-- C1: for every domain and state, a `run_iteration` call in which the
adapter fails for the Generator, the Solver, and the Judge in turn still
returns (never raises) a complete record: sentinel topic and question,
sentinel answer, Judge sentinel score 0 with a reasoning naming the system
failure and exactly one failure mode tagged as a system error, and the EMA
update still executes on the sentinel score 0. -/
theorem run_iteration_fail_soft (domain msg : String) (b : Benchmark) :
    ∃ rec b',
      run_iteration
          ⟨fun _ => none, fun _ _ => none, fun _ _ => .error msg⟩
          domain b = .ok (rec, b') ∧
        rec.iteration = b.iteration + 1 ∧
        rec.difficulty = selectDifficulty b.ema_score (b.iteration + 1) ∧
        rec.topic = "Generation Error" ∧
        rec.question = genErrorQuestion ∧
        rec.answer = solverError ∧
        rec.score = 0 ∧
        rec.reasoning = "System Error during evaluation: " ++ msg ∧
        rec.failure_modes = [⟨"System", "API/JSON Error"⟩] ∧
        rec.ema = emaUpdate b.alpha b.ema_score 0 ∧
        b'.ema_score = some (emaUpdate b.alpha b.ema_score 0) := by
  obtain ⟨h1, h2⟩ := selectDifficulty_bounds b.ema_score (b.iteration + 1)
  refine
    ⟨⟨b.iteration + 1, selectDifficulty b.ema_score (b.iteration + 1),
        "Generation Error", genErrorQuestion, solverError, 0,
        emaUpdate b.alpha b.ema_score 0, [⟨"System", "API/JSON Error"⟩],
        "System Error during evaluation: " ++ msg⟩,
      ⟨b.alpha, some (emaUpdate b.alpha b.ema_score 0), b.iteration + 1,
        b.question_history⟩,
      ?_, rfl, rfl, rfl, rfl, rfl, rfl, rfl, rfl, rfl, rfl⟩
  simp [run_iteration,
    generate_question_fail b.question_history domain _ h1 h2,
    solve, judge, sentinelEval]

/-- C10: when question generation fails, the iteration is not skipped:
the sentinel placeholder question text is itself handed to the Solver and
(together with the Solver's output) to the Judge, and appears as the
question field of the returned record, whatever the Solver and Judge
adapters do. -/
theorem run_iteration_sentinel_question
    (sol : String → String → Option String)
    (jud : String → String → Except String RawEval)
    (domain : String) (b : Benchmark) :
    ∃ rec b',
      run_iteration ⟨fun _ => none, sol, jud⟩ domain b = .ok (rec, b') ∧
        rec.question = genErrorQuestion ∧
        rec.answer = solve sol domain genErrorQuestion ∧
        rec.score =
          (judge jud domain genErrorQuestion
            (solve sol domain genErrorQuestion)).score ∧
        rec.reasoning =
          (judge jud domain genErrorQuestion
            (solve sol domain genErrorQuestion)).reasoning := by
  obtain ⟨h1, h2⟩ := selectDifficulty_bounds b.ema_score (b.iteration + 1)
  refine
    ⟨⟨b.iteration + 1, selectDifficulty b.ema_score (b.iteration + 1),
        "Generation Error", genErrorQuestion,
        solve sol domain genErrorQuestion,
        (judge jud domain genErrorQuestion
          (solve sol domain genErrorQuestion)).score,
        emaUpdate b.alpha b.ema_score
          (judge jud domain genErrorQuestion
            (solve sol domain genErrorQuestion)).score,
        (judge jud domain genErrorQuestion
          (solve sol domain genErrorQuestion)).failure_modes,
        (judge jud domain genErrorQuestion
          (solve sol domain genErrorQuestion)).reasoning⟩,
      ⟨b.alpha,
        some (emaUpdate b.alpha b.ema_score
          (judge jud domain genErrorQuestion
            (solve sol domain genErrorQuestion)).score),
        b.iteration + 1, b.question_history⟩,
      ?_, rfl, rfl, rfl, rfl⟩
  simp [run_iteration,
    generate_question_fail b.question_history domain _ h1 h2]

/-- C2: when the EMA state is undefined, the EMA update performed by
`run_iteration` sets the EMA to exactly the raw score of the iteration
(bootstrap), not to `alpha` times it. -/
theorem ema_bootstrap (a : Adapters) (domain : String) (b : Benchmark)
    (rec : IterationRecord) (b' : Benchmark)
    (hnone : b.ema_score = none)
    (h : run_iteration a domain b = .ok (rec, b')) :
    rec.ema = rec.score ∧ b'.ema_score = some rec.score := by
  simp only [run_iteration] at h
  split at h
  · exact Except.noConfusion h
  · injection h with h
    injection h with hrec hb'
    subst hrec
    subst hb'
    simp [hnone, emaUpdate]

/-- C2 witness: a concrete bootstrap run from the fresh state. -/
theorem ema_bootstrap_witness :
    recFail.ema = recFail.score ∧ benchFail.ema_score = some recFail.score :=
  ema_bootstrap failAdapters "Oncology" (Benchmark.mkInit (3 / 10))
    recFail benchFail rfl rfl

/-- C3: when a prior EMA `S` is defined, the EMA update performed by
`run_iteration` yields exactly `alpha*Y + (1-alpha)*S` for the raw score
`Y`; in particular `S = 1/2`, `alpha = 3/10`, `Y = 1` yields exactly
`13/20 = 0.65`. -/
theorem ema_formula (a : Adapters) (domain : String) (b : Benchmark)
    (s : ℚ) (rec : IterationRecord) (b' : Benchmark)
    (hsome : b.ema_score = some s)
    (h : run_iteration a domain b = .ok (rec, b')) :
    rec.ema = b.alpha * rec.score + (1 - b.alpha) * s ∧
      b'.ema_score = some (b.alpha * rec.score + (1 - b.alpha) * s) ∧
      emaUpdate (3 / 10) (some (1 / 2)) 1 = 13 / 20 := by
  refine ?_
  simp only [run_iteration] at h
  split at h
  · exact Except.noConfusion h
  · injection h with h
    injection h with hrec hb'
    subst hrec
    subst hb'
    refine ⟨?_, ?_, by norm_num [emaUpdate]⟩ <;> simp [hsome, emaUpdate]

/-- C3 witness: a concrete run from prior average `1/2` with the sentinel
score 0 lands on `7/20`. -/
theorem ema_formula_witness :
    recFail2.ema = bench2.alpha * recFail2.score + (1 - bench2.alpha) * (1 / 2) ∧
      benchFail2.ema_score =
        some (bench2.alpha * recFail2.score + (1 - bench2.alpha) * (1 / 2)) ∧
      emaUpdate (3 / 10) (some (1 / 2)) 1 = 13 / 20 :=
  ema_formula failAdapters "Oncology" bench2 (1 / 2) recFail2 benchFail2
    rfl (by
      have hd : selectDifficulty bench2.ema_score (bench2.iteration + 1) = 5 := by
        norm_num [selectDifficulty, bench2]
      simp only [run_iteration, hd]
      simp only [failAdapters, solve, judge, sentinelEval, emaUpdate, bench2,
        recFail2, benchFail2]
      norm_num
      rw [generate_question_fail ([] : List String) "Oncology" 5
        (by norm_num) (by norm_num)]
      rfl)

/-- C4: the difficulty selected by `run_iteration` is the neutral default 5
before any score exists; once an EMA exists, for EMA > 0.75 it is
non-decreasing in the iteration count up to the ceiling 10, and for
EMA ≤ 0.75 it is non-increasing down to the floor 3; in all cases it is an
integer in [1, 10]. -/
theorem difficulty_policy (e : ℚ) (i j : ℕ) (hij : i ≤ j) :
    selectDifficulty none i = 5 ∧
    (3 / 4 < e →
      selectDifficulty (some e) i ≤ selectDifficulty (some e) j ∧
      selectDifficulty (some e) j ≤ 10) ∧
    (e ≤ 3 / 4 →
      selectDifficulty (some e) j ≤ selectDifficulty (some e) i ∧
      3 ≤ selectDifficulty (some e) j) ∧
    ∀ o, 1 ≤ selectDifficulty o i ∧ selectDifficulty o i ≤ 10 := by
  have hdiv : (i / 2 : ℕ) ≤ j / 2 := Nat.div_le_div_right hij
  refine ⟨rfl, ?_, ?_, fun o => selectDifficulty_bounds o i⟩
  · intro he
    simp only [selectDifficulty, if_pos he]
    omega
  · intro he
    simp only [selectDifficulty, if_neg (not_lt.mpr he)]
    omega

/-- C4 witness: EMA 1 at iterations 1 ≤ 2. -/
theorem difficulty_policy_witness :
    selectDifficulty none 1 = 5 ∧
    (3 / 4 < (1 : ℚ) →
      selectDifficulty (some 1) 1 ≤ selectDifficulty (some 1) 2 ∧
      selectDifficulty (some 1) 2 ≤ 10) ∧
    ((1 : ℚ) ≤ 3 / 4 →
      selectDifficulty (some 1) 2 ≤ selectDifficulty (some 1) 1 ∧
      3 ≤ selectDifficulty (some 1) 2) ∧
    ∀ o, 1 ≤ selectDifficulty o 1 ∧ selectDifficulty o 1 ≤ 10 :=
  difficulty_policy 1 1 2 (by norm_num)

/-- C5 counterexample: a generation that falls back to the sentinel item
leaves the topic history unchanged (length 0, not 1), refuting the claim
that the history gains exactly one entry after every generation. -/
theorem topic_history_cex :
    generate_question (fun _ => none) [] "Oncology" 5 =
      .ok (⟨"Generation Error", genErrorQuestion, 5⟩, []) ∧
    ¬ (∀ item h',
        generate_question (fun _ => none) [] "Oncology" 5 = .ok (item, h') →
        h'.length = 1) := by
  have hg := generate_question_fail ([] : List String) "Oncology" 5
    (by norm_num) (by norm_num)
  refine ⟨hg, fun hall => ?_⟩
  have h0 := hall _ _ hg
  simp at h0

/-- C5 amended: after a successful (validated) generation the topic
history gains exactly one entry (the generated question); a sentinel
generation-error item leaves the history unchanged; the generation prompt
reads only the most recent 10 entries of the history. -/
theorem topic_history_growth (g : String → Option RawItem)
    (history : List String) (domain : String) (d : ℤ)
    (item : BenchmarkItem) (h' : List String)
    (h : generate_question g history domain d = .ok (item, h')) :
    ((h' = history ++ [item.question] ∧
        h'.length = history.length + 1) ∨
      (item.question = genErrorQuestion ∧ h' = history)) ∧
    genPrompt domain d history = genPrompt domain d (lastN 10 history) := by
  refine ⟨?_, genPrompt_lastN domain d history⟩
  simp only [generate_question] at h
  split at h
  · split at h
    · injection h with h
      injection h with h1 h2
      subst h1
      subst h2
      exact Or.inl ⟨rfl, by simp⟩
    · split at h
      · rename_i it hs
        injection h with h
        injection h with h1 h2
        subst h1
        subst h2
        exact Or.inr ⟨(sentinelItemOpt_question d _ hs).2, rfl⟩
      · exact Except.noConfusion h
  · split at h
    · rename_i it hs
      injection h with h
      injection h with h1 h2
      subst h1
      subst h2
      exact Or.inr ⟨(sentinelItemOpt_question d _ hs).2, rfl⟩
    · exact Except.noConfusion h

/-- C5 witness: a successful generation appends exactly the generated
question. -/
theorem topic_history_growth_witness :
    (((["Q"] : List String) = [] ++ [(⟨"T", "Q", 5⟩ : BenchmarkItem).question] ∧
        (["Q"] : List String).length = ([] : List String).length + 1) ∨
      ((⟨"T", "Q", 5⟩ : BenchmarkItem).question = genErrorQuestion ∧
        (["Q"] : List String) = [])) ∧
    genPrompt "Oncology" 5 [] = genPrompt "Oncology" 5 (lastN 10 []) :=
  topic_history_growth gOK [] "Oncology" 5 ⟨"T", "Q", 5⟩ ["Q"] rfl

/-- C6 counterexample: `clean_int` on the malformed string
"3 out of 10" raises a `ValueError` (modelled `none`) instead of coercing
to the leading integer token 3. -/
theorem clean_int_cex :
    clean_int (.str "3 out of 10") = none ∧
    clean_int (.str "3 out of 10") ≠ some 3 := by decide

/-- C6 amended: the coercion takes the text before the first `/` and
parses it as an integer: "7/10" coerces to 7 and validates into [1,10];
"3 out of 10" is not coerced to 3 — its parse raises, and validation of
the item fails (the caller catches this and substitutes the sentinel
item). -/
theorem clean_int_amended :
    clean_int (.str "7/10") = some 7 ∧
    BenchmarkItem.validate "T" "Q" (.str "7/10") = some ⟨"T", "Q", 7⟩ ∧
    clean_int (.str "3 out of 10") = none ∧
    BenchmarkItem.validate "T" "Q" (.str "3 out of 10") = none := by decide

set_option maxRecDepth 4000 in
/-- C7 counterexample: at difficulty 9 (which is in [1,10]) the prompt is
the fixed adversarial text: it contains neither the difficulty-targeting
line nor the recent-topics history entry "Q1", refuting the claim that
every prompt instructs the target difficulty and topic avoidance. -/
theorem gen_prompt_cex :
    genPrompt "Oncology" 9 ["Q1"] = criticalPrompt ∧
    ¬ ContainsStr (genPrompt "Oncology" 9 ["Q1"]) (diffLine 9) ∧
    ¬ ContainsStr (genPrompt "Oncology" 9 ["Q1"]) "Q1" := by
  refine ⟨rfl, by decide, by decide⟩

set_option maxRecDepth 4000 in
/-- C7 amended: for difficulty 1-8 the prompt targets the difficulty
level, carries the avoid-repetition instruction and the recent-questions
suffix; for difficulty ≥ 9 the prompt is instead only the adversarial
false-premise/trap instruction, with no difficulty or history content. -/
theorem gen_prompt_amended (domain : String) (history : List String)
    (d : ℤ) (h1 : 1 ≤ d) (h10 : d ≤ 10) :
    (d ≤ 8 →
      ContainsStr (genPrompt domain d history) (diffLine d) ∧
      ContainsStr (genPrompt domain d history) avoidLine ∧
      ContainsStr (genPrompt domain d history) (recentQuestions history)) ∧
    (8 < d →
      genPrompt domain d history = criticalPrompt ∧
      ContainsStr (genPrompt domain d history) "a subtle false premise") := by
  constructor
  · intro h8
    have hgp : genPrompt domain d history =
        standardPrompt domain d (recentQuestions history) := by
      unfold genPrompt
      rw [if_neg (by omega)]
    rw [hgp]
    refine ⟨?_, ?_, ?_⟩
    · apply containsStr_data _ _
        (promptA.data ++ domain.data ++ promptB.data)
        (promptC1.data ++ avoidLine.data ++ promptC2.data ++
          (recentQuestions history).data ++ promptD.data ++
          (toString d).data ++ promptE.data)
      simp [standardPrompt, List.append_assoc]
    · apply containsStr_data _ _
        (promptA.data ++ domain.data ++ promptB.data ++
          (diffLine d).data ++ promptC1.data)
        (promptC2.data ++ (recentQuestions history).data ++
          promptD.data ++ (toString d).data ++ promptE.data)
      simp [standardPrompt, List.append_assoc]
    · apply containsStr_data _ _
        (promptA.data ++ domain.data ++ promptB.data ++
          (diffLine d).data ++ promptC1.data ++ avoidLine.data ++
          promptC2.data)
        (promptD.data ++ (toString d).data ++ promptE.data)
      simp [standardPrompt, List.append_assoc]
  · intro h8
    have hgp : genPrompt domain d history = criticalPrompt := by
      unfold genPrompt
      rw [if_pos (by omega)]
    rw [hgp]
    exact ⟨rfl, by decide⟩

/-- C7 witness: difficulty 5 with one prior question. -/
theorem gen_prompt_amended_witness :
    ((5 : ℤ) ≤ 8 →
      ContainsStr (genPrompt "Oncology" 5 ["Q1"]) (diffLine 5) ∧
      ContainsStr (genPrompt "Oncology" 5 ["Q1"]) avoidLine ∧
      ContainsStr (genPrompt "Oncology" 5 ["Q1"]) (recentQuestions ["Q1"])) ∧
    ((8 : ℤ) < 5 →
      genPrompt "Oncology" 5 ["Q1"] = criticalPrompt ∧
      ContainsStr (genPrompt "Oncology" 5 ["Q1"]) "a subtle false premise") :=
  gen_prompt_amended "Oncology" ["Q1"] 5 (by norm_num) (by norm_num)

/-- C8: feeding a constant raw score `y` into the EMA update, starting
from a defined prior average on either side of `y`, the average strictly
approaches `y` monotonically and never overshoots it. -/
theorem ema_convergence (alpha y s : ℚ) (h0 : 0 < alpha)
    (h1 : alpha < 1) (n : ℕ) :
    (s < y →
      emaIter alpha y n s < emaIter alpha y (n + 1) s ∧
      emaIter alpha y (n + 1) s < y) ∧
    (y < s →
      emaIter alpha y (n + 1) s < emaIter alpha y n s ∧
      y < emaIter alpha y (n + 1) s) := by
  have hc : 0 < 1 - alpha := by linarith
  have hp : 0 < (1 - alpha) ^ n := pow_pos hc n
  have e1 := emaIter_sub alpha y n s
  have e2 := emaIter_sub alpha y (n + 1) s
  rw [pow_succ] at e2
  have hBA : emaIter alpha y (n + 1) s - emaIter alpha y n s =
      alpha * ((1 - alpha) ^ n * (y - s)) := by linear_combination e2 - e1
  constructor
  · intro hsy
    have hys : 0 < y - s := by linarith
    have hpos : 0 < alpha * ((1 - alpha) ^ n * (y - s)) :=
      mul_pos h0 (mul_pos hp hys)
    have hneg : (1 - alpha) ^ n * (1 - alpha) * (s - y) < 0 :=
      mul_neg_of_pos_of_neg (mul_pos hp hc) (by linarith)
    exact ⟨by linarith, by linarith⟩
  · intro hys
    have hsy : y - s < 0 := by linarith
    have hneg : alpha * ((1 - alpha) ^ n * (y - s)) < 0 :=
      mul_neg_of_pos_of_neg h0 (mul_neg_of_pos_of_neg hp hsy)
    have hpos : 0 < (1 - alpha) ^ n * (1 - alpha) * (s - y) :=
      mul_pos (mul_pos hp hc) (by linarith)
    exact ⟨by linarith, by linarith⟩

/-- C8 witness: `alpha = 1/2`, `y = 1`, starting average 0, step 1 to 2. -/
theorem ema_convergence_witness :
    ((0 : ℚ) < 1 →
      emaIter (1 / 2) 1 1 0 < emaIter (1 / 2) 1 2 0 ∧
      emaIter (1 / 2) 1 2 0 < 1) ∧
    ((1 : ℚ) < 0 →
      emaIter (1 / 2) 1 2 0 < emaIter (1 / 2) 1 1 0 ∧
      1 < emaIter (1 / 2) 1 2 0) :=
  ema_convergence (1 / 2) 1 0 (by norm_num) (by norm_num) 1

/-- C9: the EMA state is unset or within [0,1], and `run_iteration`
preserves this invariant for `alpha` in [0,1]: the (possibly sentinel)
Judge score lies in [0,1] and the EMA update is a convex combination. -/
theorem ema_score_invariant (a : Adapters) (domain : String)
    (b : Benchmark) (rec : IterationRecord) (b' : Benchmark)
    (ha0 : 0 ≤ b.alpha) (ha1 : b.alpha ≤ 1)
    (hinv : emaInvariant b.ema_score)
    (h : run_iteration a domain b = .ok (rec, b')) :
    emaInvariant b'.ema_score ∧ 0 ≤ rec.score ∧ rec.score ≤ 1 := by
  simp only [run_iteration] at h
  split at h
  · exact Except.noConfusion h
  · injection h with h
    injection h with hrec hb'
    subst hrec
    subst hb'
    refine ⟨?_, (judge_score_mem _ _ _ _).1, (judge_score_mem _ _ _ _).2⟩
    intro s hs
    injection hs with hs
    subst hs
    exact emaUpdate_mem b.alpha b.ema_score _ ha0 ha1 hinv
      (judge_score_mem _ _ _ _).1 (judge_score_mem _ _ _ _).2

/-- C9 witness: the invariant holds after an all-failing iteration from
the fresh state. -/
theorem ema_score_invariant_witness :
    emaInvariant benchFail.ema_score ∧
    0 ≤ recFail.score ∧ recFail.score ≤ 1 :=
  ema_score_invariant failAdapters "Oncology" (Benchmark.mkInit (3 / 10))
    recFail benchFail (by norm_num [Benchmark.mkInit])
    (by norm_num [Benchmark.mkInit]) (fun s hs => Option.noConfusion hs) rfl

end BenchmarkGen
